import Mathlib

/-!
Verification of the learner-state estimation engine (analytics core).

Shallow embedding of the Python source in backend/analytics:
Bayesian knowledge tracing (bayesian_kt.py), the rule-based state
predictors and the feature engineer (ml_state_predictor.py), the
ML-prediction fusion step (single_user_model.py) and the quiz
difficulty sampler (quiz_generator.py).  Floating point arithmetic is
modelled with exact rationals; the external optimizer (scipy minimize)
and the external feature selector and square root (sklearn) appear as
explicit parameters of the functions that call them.
-/

/-- BKT model parameters, mirroring the BKTParameters dataclass. -/
structure BKTParameters where
  P_L0 : ℚ
  P_T : ℚ
  P_G : ℚ
  P_S : ℚ
  deriving DecidableEq, Repr

/-- The dataclass defaults: P_L0=0.1, P_T=0.3, P_G=0.1, P_S=0.1. -/
def defaultBKTParameters : BKTParameters :=
  { P_L0 := 1/10, P_T := 3/10, P_G := 1/10, P_S := 1/10 }

/-- One learning event, mirroring the LearningObservation dataclass. -/
structure LearningObservation where
  timestamp : ℚ
  correct : Bool
  response_time : ℚ
  difficulty : ℚ
  attempts : Nat
  hint_used : Bool
  confidence : ℚ
  deriving DecidableEq, Repr

/-- The posterior-plus-transition step of update_mastery: given the
parameters and the mastery probability before the observation, the new
mastery probability.  The denominator is floored at 1e-10 exactly as in
the source. -/
def updateMasteryProb (ps : BKTParameters) (m : ℚ) (obs : LearningObservation) : ℚ :=
  let p_correct_given_mastery : ℚ := if obs.correct then 1 - ps.P_S else ps.P_S
  let p_correct_given_no_mastery : ℚ := if obs.correct then ps.P_G else 1 - ps.P_G
  let numerator := p_correct_given_mastery * m
  let denom0 := p_correct_given_mastery * m + p_correct_given_no_mastery * (1 - m)
  let denominator := if denom0 < 1/10000000000 then (1/10000000000 : ℚ) else denom0
  let posterior_mastery := numerator / denominator
  posterior_mastery + ps.P_T * (1 - posterior_mastery)

/-- State of a BayesianKnowledgeTracker instance. -/
structure BayesianKnowledgeTracker where
  knowledge_point_id : String
  params : BKTParameters
  observations : List LearningObservation
  mastery_probabilities : List ℚ
  current_mastery_prob : ℚ
  deriving DecidableEq, Repr

/-- Constructor of BayesianKnowledgeTracker: empty history, current
mastery probability initialised to P_L0. -/
def initTracker (kp : String) (ps : BKTParameters) : BayesianKnowledgeTracker :=
  { knowledge_point_id := kp, params := ps, observations := [],
    mastery_probabilities := [], current_mastery_prob := ps.P_L0 }

/-- update_mastery: append the observation, compute the new mastery
probability, record it in the trajectory and return it together with
the updated tracker. -/
def update_mastery (t : BayesianKnowledgeTracker) (obs : LearningObservation) :
    ℚ × BayesianKnowledgeTracker :=
  let new_prob := updateMasteryProb t.params t.current_mastery_prob obs
  (new_prob,
    { t with observations := t.observations ++ [obs],
             mastery_probabilities := t.mastery_probabilities ++ [new_prob],
             current_mastery_prob := new_prob })

/-- Run a sequence of observations through update_mastery. -/
def runObservations (t : BayesianKnowledgeTracker) (l : List LearningObservation) :
    BayesianKnowledgeTracker :=
  l.foldl (fun t o => (update_mastery t o).2) t

/-- A concrete correct observation. -/
def correctObs : LearningObservation :=
  { timestamp := 0, correct := true, response_time := 30, difficulty := 1/2,
    attempts := 1, hint_used := false, confidence := 1/2 }

/-- A concrete incorrect observation (answered within 60 seconds). -/
def incorrectObs : LearningObservation :=
  { timestamp := 0, correct := false, response_time := 30, difficulty := 1/2,
    attempts := 1, hint_used := false, confidence := 1/2 }

/-- C2: on a fresh tracker with the default parameters, a single correct
observation uses P_L0 as the prior, returns
0.1*0.9/(0.1*0.9+0.9*0.1) + 0.3*(1 - 0.1*0.9/(0.1*0.9+0.9*0.1)) = 0.65
exactly, and stores that value as current_mastery_prob. -/
theorem c2_first_correct_update_is_065 :
    (initTracker "kp" defaultBKTParameters).current_mastery_prob =
      defaultBKTParameters.P_L0 ∧
    (update_mastery (initTracker "kp" defaultBKTParameters) correctObs).1 =
      (1/10 * (9/10)) / (1/10 * (9/10) + 9/10 * (1/10)) +
        3/10 * (1 - (1/10 * (9/10)) / (1/10 * (9/10) + 9/10 * (1/10))) ∧
    (update_mastery (initTracker "kp" defaultBKTParameters) correctObs).1 = 13/20 ∧
    (update_mastery (initTracker "kp" defaultBKTParameters)
        correctObs).2.current_mastery_prob = 13/20 := by
  refine ⟨rfl, ?_, ?_, ?_⟩ <;>
    · simp only [update_mastery, updateMasteryProb, initTracker, defaultBKTParameters,
        correctObs]
      norm_num

/-- The tracker after three consecutive incorrect observations on
css_grid with the default parameters (P_S = P_G = 0.1). -/
def cssGridThreeWrong : BayesianKnowledgeTracker :=
  runObservations (initTracker "css_grid" defaultBKTParameters)
    [incorrectObs, incorrectObs, incorrectObs]

/-- C3 counterexample: the mastery trajectory after three incorrect
answers is strictly increasing, not non-increasing — already between the
first and the second update the probability goes up (253/820 to
17839/53560), and it is also above the initial P_L0. -/
theorem c3_counterexample_mastery_increases :
    defaultBKTParameters.P_L0 < cssGridThreeWrong.mastery_probabilities.getD 0 0 ∧
    cssGridThreeWrong.mastery_probabilities.getD 0 0 <
      cssGridThreeWrong.mastery_probabilities.getD 1 0 := by
  constructor <;>
    · simp only [cssGridThreeWrong, runObservations, List.foldl, update_mastery,
        updateMasteryProb, initTracker, defaultBKTParameters, incorrectObs]
      norm_num

/-- C3 amended: with P_S = P_G = 0.1 and the remaining parameters at the
defaults (P_L0 = 0.1, P_T = 0.3), three consecutive incorrect
observations produce a strictly increasing mastery trajectory: the
learning-transition term P_T outweighs the negative evidence at low
mastery, so the probability rises after every one of the three updates. -/
theorem c3_amended_three_wrong_strictly_increase :
    cssGridThreeWrong.mastery_probabilities.length = 3 ∧
    defaultBKTParameters.P_L0 < cssGridThreeWrong.mastery_probabilities.getD 0 0 ∧
    cssGridThreeWrong.mastery_probabilities.getD 0 0 <
      cssGridThreeWrong.mastery_probabilities.getD 1 0 ∧
    cssGridThreeWrong.mastery_probabilities.getD 1 0 <
      cssGridThreeWrong.mastery_probabilities.getD 2 0 := by
  refine ⟨?_, ?_, ?_, ?_⟩ <;>
    · simp only [cssGridThreeWrong, runObservations, List.foldl, update_mastery,
        updateMasteryProb, initTracker, defaultBKTParameters, incorrectObs]
      norm_num

/-- Bounds for the Bayes posterior with the floored denominator: for
nonnegative likelihoods and a prior in [0,1] the posterior is in [0,1]. -/
theorem bkt_posterior_bounds (a b m : ℚ) (ha0 : 0 ≤ a) (hb0 : 0 ≤ b)
    (hm0 : 0 ≤ m) (hm1 : m ≤ 1) :
    0 ≤ a * m / (if a * m + b * (1 - m) < 1/10000000000 then (1/10000000000 : ℚ)
        else a * m + b * (1 - m)) ∧
      a * m / (if a * m + b * (1 - m) < 1/10000000000 then (1/10000000000 : ℚ)
        else a * m + b * (1 - m)) ≤ 1 := by
  have hnum : 0 ≤ a * m := mul_nonneg ha0 hm0
  have hrest : 0 ≤ b * (1 - m) := mul_nonneg hb0 (by linarith)
  by_cases h : a * m + b * (1 - m) < 1/10000000000
  · rw [if_pos h]
    refine ⟨div_nonneg hnum (by norm_num), ?_⟩
    rw [div_le_one (by norm_num)]
    linarith
  · rw [if_neg h]
    push_neg at h
    have hd : 0 < a * m + b * (1 - m) := lt_of_lt_of_le (by norm_num) h
    exact ⟨div_nonneg hnum hd.le, (div_le_one hd).mpr (by linarith)⟩

/-- One update_mastery step keeps the mastery probability inside [0,1]
whenever the parameters lie in [0,1]. -/
theorem updateMasteryProb_bounds (ps : BKTParameters)
    (hS0 : 0 ≤ ps.P_S) (hS1 : ps.P_S ≤ 1) (hG0 : 0 ≤ ps.P_G) (hG1 : ps.P_G ≤ 1)
    (hT0 : 0 ≤ ps.P_T) (hT1 : ps.P_T ≤ 1)
    (m : ℚ) (hm0 : 0 ≤ m) (hm1 : m ≤ 1) (obs : LearningObservation) :
    0 ≤ updateMasteryProb ps m obs ∧ updateMasteryProb ps m obs ≤ 1 := by
  have ha0 : 0 ≤ (if obs.correct then 1 - ps.P_S else ps.P_S) := by
    split <;> linarith
  have hb0 : 0 ≤ (if obs.correct then ps.P_G else 1 - ps.P_G) := by
    split <;> linarith
  have hpost := bkt_posterior_bounds (if obs.correct then 1 - ps.P_S else ps.P_S)
    (if obs.correct then ps.P_G else 1 - ps.P_G) m ha0 hb0 hm0 hm1
  unfold updateMasteryProb
  constructor
  · have := mul_nonneg hT0 (by linarith [hpost.2] : (0:ℚ) ≤ 1 -
      (if obs.correct then 1 - ps.P_S else ps.P_S) * m /
        (if (if obs.correct then 1 - ps.P_S else ps.P_S) * m +
            (if obs.correct then ps.P_G else 1 - ps.P_G) * (1 - m) < 1/10000000000
          then (1/10000000000 : ℚ)
          else (if obs.correct then 1 - ps.P_S else ps.P_S) * m +
            (if obs.correct then ps.P_G else 1 - ps.P_G) * (1 - m)))
    linarith [hpost.1]
  · nlinarith [hpost.1, hpost.2]

/-- Along runObservations, the recorded trajectory, the current mastery
probability and the parameters all keep their invariants. -/
theorem runObservations_invariant (ps : BKTParameters)
    (hS0 : 0 ≤ ps.P_S) (hS1 : ps.P_S ≤ 1) (hG0 : 0 ≤ ps.P_G) (hG1 : ps.P_G ≤ 1)
    (hT0 : 0 ≤ ps.P_T) (hT1 : ps.P_T ≤ 1) :
    ∀ (l : List LearningObservation) (t : BayesianKnowledgeTracker),
      t.params = ps → 0 ≤ t.current_mastery_prob → t.current_mastery_prob ≤ 1 →
      (∀ q ∈ t.mastery_probabilities, 0 ≤ q ∧ q ≤ 1) →
      ((∀ q ∈ (runObservations t l).mastery_probabilities, 0 ≤ q ∧ q ≤ 1) ∧
        0 ≤ (runObservations t l).current_mastery_prob ∧
        (runObservations t l).current_mastery_prob ≤ 1 ∧
        (runObservations t l).params = ps) := by
  intro l
  induction l with
  | nil =>
    intro t hp h0 h1 htraj
    exact ⟨htraj, h0, h1, hp⟩
  | cons o rest ih =>
    intro t hp h0 h1 htraj
    have hstep : 0 ≤ updateMasteryProb t.params t.current_mastery_prob o ∧
        updateMasteryProb t.params t.current_mastery_prob o ≤ 1 := by
      rw [hp]
      exact updateMasteryProb_bounds ps hS0 hS1 hG0 hG1 hT0 hT1
        t.current_mastery_prob h0 h1 o
    have hrun : runObservations t (o :: rest) = runObservations (update_mastery t o).2 rest := rfl
    rw [hrun]
    apply ih
    · simpa [update_mastery] using hp
    · simpa [update_mastery] using hstep.1
    · simpa [update_mastery] using hstep.2
    · intro q hq
      simp only [update_mastery, List.mem_append, List.mem_singleton] at hq
      rcases hq with hq | hq
      · exact htraj q hq
      · rw [hq]
        exact hstep

/-- C1: for parameters strictly inside (0,1) and any observation
sequence, every value recorded as current_mastery_prob after an
update_mastery call lies in [0,1]. -/
theorem c1_mastery_stays_in_unit_interval (kp : String) (ps : BKTParameters)
    (hL0 : 0 < ps.P_L0) (hL1 : ps.P_L0 < 1) (hT0 : 0 < ps.P_T) (hT1 : ps.P_T < 1)
    (hG0 : 0 < ps.P_G) (hG1 : ps.P_G < 1) (hS0 : 0 < ps.P_S) (hS1 : ps.P_S < 1)
    (l : List LearningObservation) :
    ∀ q ∈ (runObservations (initTracker kp ps) l).mastery_probabilities,
      0 ≤ q ∧ q ≤ 1 := by
  have h := runObservations_invariant ps hS0.le hS1.le hG0.le hG1.le hT0.le hT1.le
    l (initTracker kp ps) rfl (by simpa [initTracker] using hL0.le)
    (by simpa [initTracker] using hL1.le)
    (by intro q hq; simp [initTracker] at hq)
  exact h.1

/-- Witness for C1 at the default parameters and a concrete two-element
observation sequence. -/
theorem c1_witness :
    (0 < defaultBKTParameters.P_L0 ∧ defaultBKTParameters.P_L0 < 1 ∧
      0 < defaultBKTParameters.P_T ∧ defaultBKTParameters.P_T < 1 ∧
      0 < defaultBKTParameters.P_G ∧ defaultBKTParameters.P_G < 1 ∧
      0 < defaultBKTParameters.P_S ∧ defaultBKTParameters.P_S < 1) ∧
    (∀ q ∈ (runObservations (initTracker "css_grid" defaultBKTParameters)
        [correctObs, incorrectObs]).mastery_probabilities, 0 ≤ q ∧ q ≤ 1) :=
  ⟨by norm_num [defaultBKTParameters],
    c1_mastery_stays_in_unit_interval "css_grid" defaultBKTParameters
      (by norm_num [defaultBKTParameters]) (by norm_num [defaultBKTParameters])
      (by norm_num [defaultBKTParameters]) (by norm_num [defaultBKTParameters])
      (by norm_num [defaultBKTParameters]) (by norm_num [defaultBKTParameters])
      (by norm_num [defaultBKTParameters]) (by norm_num [defaultBKTParameters])
      [correctObs, incorrectObs]⟩

/-- AdaptiveBKTSystem.update_knowledge restricted to one knowledge
point: run update_mastery, then re-fit when the observation count has
reached min_observations_for_fitting (10) and is a multiple of
refit_interval (20).  The result of the parameter estimator
(fit_parameters on the accumulated observations, a scipy optimisation)
is abstracted as the function refitFn of those observations. -/
def update_knowledge (refitFn : List LearningObservation → BKTParameters)
    (t : BayesianKnowledgeTracker) (obs : LearningObservation) :
    BayesianKnowledgeTracker :=
  let t2 := (update_mastery t obs).2
  if 10 ≤ t2.observations.length ∧ t2.observations.length % 20 = 0 then
    { t2 with params := refitFn t2.observations }
  else t2

/-- Feed a sequence of observations through update_knowledge. -/
def runUpdateKnowledge (refitFn : List LearningObservation → BKTParameters)
    (t : BayesianKnowledgeTracker) (l : List LearningObservation) :
    BayesianKnowledgeTracker :=
  l.foldl (update_knowledge refitFn) t

theorem update_knowledge_observations (f : List LearningObservation → BKTParameters)
    (t : BayesianKnowledgeTracker) (o : LearningObservation) :
    (update_knowledge f t o).observations = t.observations ++ [o] := by
  simp only [update_knowledge]
  split <;> simp [update_mastery]

theorem runUpdateKnowledge_observations (f : List LearningObservation → BKTParameters)
    (l : List LearningObservation) (t : BayesianKnowledgeTracker) :
    (runUpdateKnowledge f t l).observations = t.observations ++ l := by
  induction l generalizing t with
  | nil => simp [runUpdateKnowledge]
  | cons o rest ih =>
    have : runUpdateKnowledge f t (o :: rest) =
        runUpdateKnowledge f (update_knowledge f t o) rest := rfl
    rw [this, ih, update_knowledge_observations]
    simp

/-- The parameters held after feeding n observations from a fresh
tracker: unchanged below the first refit point (count 20), and
afterwards equal to the estimator result at the most recent multiple of
20 observations. -/
theorem runUpdateKnowledge_params (f : List LearningObservation → BKTParameters)
    (kp : String) (ps : BKTParameters) (l : List LearningObservation) :
    (runUpdateKnowledge f (initTracker kp ps) l).params =
      if l.length < 20 then ps else f (l.take (20 * (l.length / 20))) := by
  induction l using List.reverseRecOn with
  | nil => simp [runUpdateKnowledge, initTracker]
  | append_singleton xs x ih =>
    have hrun : runUpdateKnowledge f (initTracker kp ps) (xs ++ [x]) =
        update_knowledge f (runUpdateKnowledge f (initTracker kp ps) xs) x := by
      simp [runUpdateKnowledge]
    have hobs : (runUpdateKnowledge f (initTracker kp ps) xs).observations = xs := by
      rw [runUpdateKnowledge_observations]
      simp [initTracker]
    rw [hrun]
    unfold update_knowledge
    simp only [update_mastery, hobs]
    by_cases hcond : 10 ≤ (xs ++ [x]).length ∧ (xs ++ [x]).length % 20 = 0
    · rw [if_pos (by simpa [update_mastery, hobs] using hcond)]
      have hlen : (xs ++ [x]).length = xs.length + 1 := by simp
      have hge : ¬ (xs ++ [x]).length < 20 := by
        rcases hcond with ⟨h10, hmod⟩
        omega
      have htake : 20 * ((xs ++ [x]).length / 20) = (xs ++ [x]).length := by
        rcases hcond with ⟨h10, hmod⟩
        omega
      rw [if_neg hge, htake, List.take_length]
    · rw [if_neg (by simpa [update_mastery, hobs] using hcond)]
      simp only [update_mastery]
      rw [ih]
      rcases Nat.lt_or_ge ((xs ++ [x]).length) 20 with hlt | hge2
    /- below 20 observations nothing has been refit on either side -/
      · have : xs.length < 20 := by simp at hlt ⊢; omega
        rw [if_pos this, if_pos hlt]
      · have hmodne : (xs ++ [x]).length % 20 ≠ 0 := by
          intro hmod
          exact hcond ⟨by omega, hmod⟩
        have hxs : ¬ xs.length < 20 := by
          simp at hge2 hmodne ⊢
          omega
        rw [if_neg hxs, if_neg (by omega)]
        have hdiv : 20 * ((xs ++ [x]).length / 20) = 20 * (xs.length / 20) := by
          simp at hmodne ⊢
          omega
        rw [hdiv]
        have hle : 20 * (xs.length / 20) ≤ xs.length := by omega
        rw [List.take_append_of_le_length hle]

/-- An alternative parameter set distinct from the defaults, standing in
for a successful estimator output. -/
def altBKTParameters : BKTParameters :=
  { P_L0 := 1/5, P_T := 1/5, P_G := 1/5, P_S := 1/5 }

/-- C4 counterexample: after exactly 10 observations — the count at
which the claim says the first re-fit happens — the tracker still holds
the initial default parameters, not the estimator output, because the
code refits only when the count is a multiple of 20. -/
theorem c4_counterexample_no_refit_at_ten :
    (runUpdateKnowledge (fun _ => altBKTParameters)
        (initTracker "kp" defaultBKTParameters)
        (List.replicate 10 incorrectObs)).params = defaultBKTParameters ∧
      altBKTParameters ≠ defaultBKTParameters := by
  constructor
  · rw [runUpdateKnowledge_params]
    simp
  · simp only [ne_eq, altBKTParameters, defaultBKTParameters, BKTParameters.mk.injEq]
    norm_num

/-- C4 amended: update_knowledge re-fits (replacing the parameters held by the tracker with the estimator output) exactly when the observation count
is at least min_observations_for_fitting (10) AND a multiple of
refit_interval (20) — that is at counts 20, 40, 60, …, never at 10; at
every other count the parameters are left unchanged, so after n
observations the parameters are the initial ones when n < 20 and
otherwise the estimator output at the last multiple of 20. -/
theorem c4_amended_refit_at_multiples_of_twenty
    (f : List LearningObservation → BKTParameters) (kp : String)
    (ps : BKTParameters) (l : List LearningObservation) (o : LearningObservation) :
    ((runUpdateKnowledge f (initTracker kp ps) l).params =
      if l.length < 20 then ps else f (l.take (20 * (l.length / 20)))) ∧
    (update_knowledge f (runUpdateKnowledge f (initTracker kp ps) l) o =
      if 10 ≤ l.length + 1 ∧ (l.length + 1) % 20 = 0 then
        { (update_mastery (runUpdateKnowledge f (initTracker kp ps) l) o).2 with
            params := f (l ++ [o]) }
      else (update_mastery (runUpdateKnowledge f (initTracker kp ps) l) o).2) := by
  constructor
  · exact runUpdateKnowledge_params f kp ps l
  · have hobs : (runUpdateKnowledge f (initTracker kp ps) l).observations = l := by
      rw [runUpdateKnowledge_observations]
      simp [initTracker]
    unfold update_knowledge
    simp [update_mastery, hobs]

/-- Outcome of the scipy L-BFGS-B call inside _fit_mle: convergence with
a fitted parameter vector, non-convergence (result.success false), or an
exception escaping from minimize. -/
inductive OptimizeOutcome where
  | converged (x : BKTParameters)
  | notConverged (msg : String)
  | raised (msg : String)
  deriving DecidableEq, Repr

/-- BKTParameterEstimator._fit_mle: on convergence return the fitted
parameters; on non-convergence or an exception, return the defaults. -/
def fitMle (outcome : OptimizeOutcome) : BKTParameters :=
  match outcome with
  | OptimizeOutcome.converged x => x
  | OptimizeOutcome.notConverged _ => defaultBKTParameters
  | OptimizeOutcome.raised _ => defaultBKTParameters

/-- BKTParameterEstimator.fit_parameters: defaults on an empty
observation list, _fit_mle for method mle, and a raised ValueError —
modelled as Except.error — for any other method string. -/
def fit_parameters (kp : String) (observations : List LearningObservation)
    (method : String) (outcome : OptimizeOutcome) :
    Except String BKTParameters :=
  if observations.isEmpty then Except.ok defaultBKTParameters
  else if method = "mle" then Except.ok (fitMle outcome)
  else Except.error ("unsupported estimation method: " ++ method)

/-- C5 counterexample: fit_parameters does raise to the caller — with a
nonempty observation list and any method other than mle (here "em") it
raises ValueError instead of returning parameters. -/
theorem c5_counterexample_raises_on_bad_method :
    fit_parameters "css_grid" [incorrectObs] "em"
        (OptimizeOutcome.converged altBKTParameters) =
      Except.error ("unsupported estimation method: " ++ "em") := by
  rfl

/-- C5 amended: with the default method mle, fit_parameters never raises
to the caller; it returns the default BKTParameters unchanged when the
optimizer fails to converge, when the optimisation raises internally,
and when the observation list is empty.  (A nonempty list with fewer
than 10 observations is still handed to the optimizer — the <10 gate
lives in AdaptiveBKTSystem — and an unsupported method string raises
ValueError.) -/
theorem c5_amended_mle_never_raises (kp : String)
    (observations : List LearningObservation) (outcome : OptimizeOutcome) :
    (∃ p, fit_parameters kp observations "mle" outcome = Except.ok p) ∧
    (∀ msg, outcome = OptimizeOutcome.notConverged msg →
      fit_parameters kp observations "mle" outcome =
        Except.ok defaultBKTParameters) ∧
    (∀ msg, outcome = OptimizeOutcome.raised msg →
      fit_parameters kp observations "mle" outcome =
        Except.ok defaultBKTParameters) ∧
    (observations = [] →
      fit_parameters kp observations "mle" outcome =
        Except.ok defaultBKTParameters) := by
  refine ⟨?_, ?_, ?_, ?_⟩
  · unfold fit_parameters
    split
    · exact ⟨defaultBKTParameters, rfl⟩
    · rw [if_pos rfl]
      exact ⟨fitMle outcome, rfl⟩
  · intro msg hmsg
    subst hmsg
    unfold fit_parameters
    split
    · rfl
    · rw [if_pos rfl]
      rfl
  · intro msg hmsg
    subst hmsg
    unfold fit_parameters
    split
    · rfl
    · rw [if_pos rfl]
      rfl
  · intro hobs
    subst hobs
    rfl

/-- Witness for C5 amended at concrete inputs: one observation and a
non-converged optimizer yield the defaults without an error. -/
theorem c5_witness :
    fit_parameters "css_grid" [incorrectObs] "mle"
        (OptimizeOutcome.notConverged "ABNORMAL_TERMINATION_IN_LNSRCH") =
      Except.ok defaultBKTParameters :=
  (c5_amended_mle_never_raises "css_grid" [incorrectObs]
      (OptimizeOutcome.notConverged "ABNORMAL_TERMINATION_IN_LNSRCH")).2.1
    "ABNORMAL_TERMINATION_IN_LNSRCH" rfl

/-- The cognitive-state slice of the base learner model that
_integrate_ml_predictions mutates. -/
structure CognitiveState where
  cognitive_load : String
  load_confidence : ℚ
  confusion_score : ℚ
  confusion_level : String
  deriving DecidableEq, Repr

/-- A cognitive-load prediction (classifier output: a class label and a
confidence). -/
structure CogLoadPrediction where
  label : String
  confidence : ℚ
  deriving DecidableEq, Repr

/-- A confusion prediction (regressor output: a score and a
confidence). -/
structure ConfusionPrediction where
  score : ℚ
  confidence : ℚ
  deriving DecidableEq, Repr

/-- SingleUserLearningModel._integrate_ml_predictions: apply the
cognitive-load prediction only when its confidence exceeds 0.7, then
apply the confusion prediction only when its confidence exceeds 0.7,
discretising the confusion score with thresholds 0.7 / 0.5 / 0.2.
Absent keys of the ml_predictions dict are modelled as none. -/
def integrate_ml_predictions (cog : Option CogLoadPrediction)
    (conf : Option ConfusionPrediction) (cs : CognitiveState) : CognitiveState :=
  let cs1 :=
    match cog with
    | some cp =>
      if cp.confidence > 7/10 then
        { cs with cognitive_load := cp.label, load_confidence := cp.confidence }
      else cs
    | none => cs
  match conf with
  | some fp =>
    if fp.confidence > 7/10 then
      { cs1 with
          confusion_score := fp.score,
          confusion_level :=
            if fp.score > 7/10 then "severe"
            else if fp.score > 1/2 then "moderate"
            else if fp.score > 1/5 then "slight"
            else "none" }
    else cs1
  | none => cs1

/-- C6: the fusion step is gated on confidence > 0.7 — a cognitive-load
prediction with confidence at most 0.7 leaves cognitive_load and
load_confidence unchanged, and a confusion prediction with confidence at
most 0.7 leaves confusion_score and confusion_level unchanged. -/
theorem c6_low_confidence_predictions_leave_state_unchanged
    (cog : Option CogLoadPrediction) (conf : Option ConfusionPrediction)
    (cs : CognitiveState) :
    ((∀ cp, cog = some cp → cp.confidence ≤ 7/10) →
      (integrate_ml_predictions cog conf cs).cognitive_load = cs.cognitive_load ∧
      (integrate_ml_predictions cog conf cs).load_confidence = cs.load_confidence) ∧
    ((∀ fp, conf = some fp → fp.confidence ≤ 7/10) →
      (integrate_ml_predictions cog conf cs).confusion_score = cs.confusion_score ∧
      (integrate_ml_predictions cog conf cs).confusion_level = cs.confusion_level) := by
  constructor
  · intro hcog
    rcases conf with _ | fp <;> rcases cog with _ | cp <;>
      simp only [integrate_ml_predictions]
    · constructor <;> trivial
    · rw [if_neg (not_lt.mpr (hcog cp rfl))]
      exact ⟨rfl, rfl⟩
    · split <;> exact ⟨rfl, rfl⟩
    · rw [if_neg (not_lt.mpr (hcog cp rfl))]
      split <;> exact ⟨rfl, rfl⟩
  · intro hconf
    rcases conf with _ | fp <;> rcases cog with _ | cp <;>
      simp only [integrate_ml_predictions]
    · constructor <;> trivial
    · split <;> exact ⟨rfl, rfl⟩
    · rw [if_neg (not_lt.mpr (hconf fp rfl))]
      exact ⟨rfl, rfl⟩
    · rw [if_neg (not_lt.mpr (hconf fp rfl))]
      split <;> exact ⟨rfl, rfl⟩

/-- Witness for C6 at concrete low-confidence predictions: confidence
0.6 on both channels leaves all four gated fields unchanged. -/
theorem c6_witness :
    (integrate_ml_predictions (some { label := "high", confidence := 3/5 })
        (some { score := 9/10, confidence := 3/5 })
        { cognitive_load := "medium", load_confidence := 1/2,
          confusion_score := 1/10, confusion_level := "none" }).cognitive_load =
      "medium" ∧
    (integrate_ml_predictions (some { label := "high", confidence := 3/5 })
        (some { score := 9/10, confidence := 3/5 })
        { cognitive_load := "medium", load_confidence := 1/2,
          confusion_score := 1/10, confusion_level := "none" }).load_confidence =
      1/2 ∧
    (integrate_ml_predictions (some { label := "high", confidence := 3/5 })
        (some { score := 9/10, confidence := 3/5 })
        { cognitive_load := "medium", load_confidence := 1/2,
          confusion_score := 1/10, confusion_level := "none" }).confusion_score =
      1/10 ∧
    (integrate_ml_predictions (some { label := "high", confidence := 3/5 })
        (some { score := 9/10, confidence := 3/5 })
        { cognitive_load := "medium", load_confidence := 1/2,
          confusion_score := 1/10, confusion_level := "none" }).confusion_level =
      "none" := by
  have h := c6_low_confidence_predictions_leave_state_unchanged
    (some { label := "high", confidence := 3/5 })
    (some { score := 9/10, confidence := 3/5 })
    { cognitive_load := "medium", load_confidence := 1/2,
      confusion_score := 1/10, confusion_level := "none" }
  have h1 := h.1 (by intro cp hcp; injection hcp with hcp; rw [← hcp]; norm_num)
  have h2 := h.2 (by intro fp hfp; injection hfp with hfp; rw [← hfp]; norm_num)
  exact ⟨h1.1, h1.2, h2.1, h2.2⟩

/-- The 19-feature behaviour vector, mirroring the FeatureVector
dataclass with its field defaults.  The three *_ratio fields of the
source are rendered here with a _fraction suffix. -/
structure FeatureVector where
  edit_frequency : ℚ := 0
  edit_chars_per_minute : ℚ := 0
  avg_pause_duration : ℚ := 5
  error_rate : ℚ := 0
  help_frequency : ℚ := 0
  session_duration : ℚ := 0
  active_time_fraction : ℚ := 1/2
  code_length_variance : ℚ := 0
  syn_error_fraction : ℚ := 0
  logic_error_fraction : ℚ := 0
  cursor_jump_frequency : ℚ := 0
  backspace_frequency : ℚ := 0
  copy_paste_frequency : ℚ := 0
  recent_success_rate : ℚ := 1/2
  learning_streak : ℤ := 0
  total_practice_time : ℚ := 0
  task_difficulty : ℚ := 1/2
  time_of_day : ℚ := 12
  day_of_week : ℤ := 1
  deriving DecidableEq, Repr

/-- The all-defaults feature vector. -/
def defaultFeatureVector : FeatureVector := {}

/-- FeatureVector.to_array: the fixed feature order used by the
numeric pipeline. -/
def FeatureVector.to_array (f : FeatureVector) : List ℚ :=
  [f.edit_frequency, f.edit_chars_per_minute, f.avg_pause_duration,
   f.error_rate, f.help_frequency, f.session_duration,
   f.active_time_fraction, f.code_length_variance, f.syn_error_fraction,
   f.logic_error_fraction, f.cursor_jump_frequency, f.backspace_frequency,
   f.copy_paste_frequency, f.recent_success_rate, (f.learning_streak : ℚ),
   f.total_practice_time, f.task_difficulty, f.time_of_day, (f.day_of_week : ℚ)]

/-- Result of the cognitive-load predictor: a class label, a confidence
and a class-probability table. -/
structure LoadPredictionResult where
  label : String
  confidence : ℚ
  probabilities : List (String × ℚ)
  deriving DecidableEq, Repr

/-- The weighted-sum score of
CognitiveLoadPredictor._rule_based_prediction:
(edit_frequency/10)*0.3 + error_rate*0.4 + max(0, 1 - pause/30)*0.3. -/
def ruleBasedScore (f : FeatureVector) : ℚ :=
  f.edit_frequency / 10 * (3/10) + f.error_rate * (4/10) +
    max 0 (1 - f.avg_pause_duration / 30) * (3/10)

/-- CognitiveLoadPredictor._rule_based_prediction: thresholds 0.7 / 0.4
map the score to high / medium / low, with the confidences of the source and
class-probability table. -/
def rule_based_prediction (f : FeatureVector) : LoadPredictionResult :=
  let score := ruleBasedScore f
  let probabilities : List (String × ℚ) :=
    [("low", max 0 (1 - score)),
     ("medium", max 0 (1 - |score - 1/2| * 2)),
     ("high", max 0 score)]
  if score > 7/10 then
    { label := "high", confidence := min score (9/10), probabilities := probabilities }
  else if score > 4/10 then
    { label := "medium", confidence := 7/10, probabilities := probabilities }
  else
    { label := "low", confidence := min (1 - score) (9/10), probabilities := probabilities }

/-- CognitiveLoadPredictor.predict: when untrained fall back to the rule,
when trained use the fitted model (abstracted as mlModel) and fall back
to the rule if it throws (abstracted as none). -/
def cognitive_load_predict (is_trained : Bool)
    (mlModel : FeatureVector → Option LoadPredictionResult)
    (f : FeatureVector) : LoadPredictionResult :=
  if is_trained then
    match mlModel f with
    | some r => r
    | none => rule_based_prediction f
  else rule_based_prediction f

/-- The feature vector of the C7 scenario: error_rate = 0.9,
edit_frequency = 20, avg_pause_duration = 2, everything else default. -/
def c7Feature : FeatureVector :=
  { defaultFeatureVector with
      error_rate := 9/10, edit_frequency := 20, avg_pause_duration := 2 }

/-- C7: on an untrained predictor the rule-based path is taken for any
fitted-model stub; on the scenario feature vector the rule score is
0.3*(20/10) + 0.4*0.9 + 0.3*max(0, 1 - 2/30) = 1.24 and the prediction
is high; and the 0.7 / 0.4 thresholds map any score to
high / medium / low. -/
theorem c7_untrained_rule_based_predicts_high
    (mlModel : FeatureVector → Option LoadPredictionResult) :
    (cognitive_load_predict false mlModel c7Feature =
      rule_based_prediction c7Feature) ∧
    ruleBasedScore c7Feature =
      20 / 10 * (3/10) + 9/10 * (4/10) + max 0 (1 - 2/30) * (3/10) ∧
    ruleBasedScore c7Feature = 31/25 ∧
    (rule_based_prediction c7Feature).label = "high" ∧
    (rule_based_prediction c7Feature).confidence = 9/10 ∧
    (∀ g : FeatureVector, 7/10 < ruleBasedScore g →
      (rule_based_prediction g).label = "high") ∧
    (∀ g : FeatureVector, ruleBasedScore g ≤ 7/10 → 4/10 < ruleBasedScore g →
      (rule_based_prediction g).label = "medium") ∧
    (∀ g : FeatureVector, ruleBasedScore g ≤ 4/10 →
      (rule_based_prediction g).label = "low") := by
  have hscore : ruleBasedScore c7Feature = 31/25 := by
    simp only [ruleBasedScore, c7Feature, defaultFeatureVector]
    rw [show (1 : ℚ) - 2/30 = 14/15 by norm_num,
      show max (0 : ℚ) (14/15) = 14/15 from max_eq_right (by norm_num)]
    norm_num
  refine ⟨rfl, ?_, hscore, ?_, ?_, ?_, ?_, ?_⟩
  · rw [hscore]
    rw [show (1 : ℚ) - 2/30 = 14/15 by norm_num,
      show max (0 : ℚ) (14/15) = 14/15 from max_eq_right (by norm_num)]
    norm_num
  · simp only [rule_based_prediction]
    rw [if_pos (by rw [hscore]; norm_num)]
  · simp only [rule_based_prediction]
    rw [if_pos (by rw [hscore]; norm_num)]
    simp only [hscore]
    rw [show min (31/25 : ℚ) (9/10) = 9/10 from min_eq_right (by norm_num)]
  · intro g hg
    simp only [rule_based_prediction]
    rw [if_pos hg]
  · intro g hg7 hg4
    simp only [rule_based_prediction]
    rw [if_neg (not_lt.mpr hg7), if_pos hg4]
  · intro g hg
    simp only [rule_based_prediction]
    rw [if_neg (not_lt.mpr (le_trans hg (by norm_num))),
      if_neg (not_lt.mpr hg)]

/-- Witness for C7 with a concrete fitted-model stub and the threshold
clauses instantiated at the scenario feature vector. -/
theorem c7_witness :
    cognitive_load_predict false (fun _ => none) c7Feature =
      rule_based_prediction c7Feature ∧
    (rule_based_prediction c7Feature).label = "high" := by
  have h := c7_untrained_rule_based_predicts_high (fun _ => none)
  exact ⟨h.1, h.2.2.2.1⟩

/-- Arithmetic mean of a list of rationals (numpy mean). -/
def listMean (l : List ℚ) : ℚ := l.sum / l.length

/-- Population variance of a list of rationals (numpy var). -/
def listVariance (l : List ℚ) : ℚ :=
  ((l.map (fun x => (x - listMean l) ^ 2)).sum) / l.length

/-- StandardScaler.fit_transform on a row-major matrix of 19-column
feature rows: per column subtract the mean and divide by the standard
deviation, a zero deviation being replaced by 1 as sklearn does.  The
square root of the variance is abstracted as sqrtFn. -/
def scalerFitTransform (sqrtFn : ℚ → ℚ) (X : List (List ℚ)) : List (List ℚ) :=
  X.map (fun row =>
    (List.range 19).map (fun j =>
      let col := X.map (fun r => r.getD j 0)
      let scale := if listVariance col = 0 then 1 else sqrtFn (listVariance col)
      (row.getD j 0 - listMean col) / scale))

/-- FeatureEngineer.fit_transform in the default configuration (a
selector with k = 15 is present): raise on an empty feature list, scale,
and run SelectKBest — abstracted as selectKBest — only when labels are
present with more than one distinct value. -/
def fit_transform (sqrtFn : ℚ → ℚ)
    (selectKBest : List (List ℚ) → List ℚ → List (List ℚ))
    (features : List FeatureVector) (y : Option (List ℚ)) :
    Except String (List (List ℚ)) :=
  if features.isEmpty then Except.error "empty feature list"
  else
    let X := features.map FeatureVector.to_array
    let X_scaled := scalerFitTransform sqrtFn X
    match y with
    | some ys =>
      if 1 < ys.dedup.length then Except.ok (selectKBest X_scaled ys)
      else Except.ok X_scaled
    | none => Except.ok X_scaled

/-- C8: on a nonempty feature list with an equal-length label list with
exactly one distinct value, fit_transform does not raise, skips the
selection, and returns the scaled matrix with one row per input
feature vector. -/
theorem c8_single_class_no_raise_same_rows (sqrtFn : ℚ → ℚ)
    (selectKBest : List (List ℚ) → List ℚ → List (List ℚ))
    (features : List FeatureVector) (ys : List ℚ)
    (hne : features ≠ []) (hlen : ys.length = features.length)
    (hone : ys.dedup.length = 1) :
    fit_transform sqrtFn selectKBest features (some ys) =
      Except.ok (scalerFitTransform sqrtFn (features.map FeatureVector.to_array)) ∧
    (scalerFitTransform sqrtFn (features.map FeatureVector.to_array)).length =
      features.length := by
  constructor
  · simp only [fit_transform]
    rw [if_neg (by simpa [List.isEmpty_iff] using hne),
      if_neg (by rw [hone]; norm_num)]
  · simp only [scalerFitTransform, List.length_map]

/-- Witness for C8: one feature row with the single label 1. -/
theorem c8_witness :
    fit_transform id (fun x _ => x) [defaultFeatureVector] (some [1]) =
      Except.ok (scalerFitTransform id
        ([defaultFeatureVector].map FeatureVector.to_array)) ∧
    (scalerFitTransform id
        ([defaultFeatureVector].map FeatureVector.to_array)).length = 1 :=
  c8_single_class_no_raise_same_rows id (fun x _ => x) [defaultFeatureVector]
    [1] (by simp) (by simp) (by simp)

/-- The quiz difficulty levels of quiz_generator. -/
inductive DifficultyLevel where
  | easy
  | medium
  | hard
  deriving DecidableEq, Repr

/-- The cumulative scan of QuizGenerator._select_difficulty: walk the
distribution in order, accumulate the probabilities and return the first
level whose running sum reaches the draw. -/
def select_difficulty_go (rand : ℚ) :
    List (DifficultyLevel × ℚ) → ℚ → DifficultyLevel
  | [], _ => DifficultyLevel.medium
  | (difficulty, prob) :: rest, cumulative =>
    if rand ≤ cumulative + prob then difficulty
    else select_difficulty_go rand rest (cumulative + prob)

/-- QuizGenerator._select_difficulty: cumulative-probability sampling
over the ordered distribution, with MEDIUM as the default bucket when
no cumulative sum reaches the draw. -/
def select_difficulty (rand : ℚ) (dist : List (DifficultyLevel × ℚ)) :
    DifficultyLevel :=
  select_difficulty_go rand dist 0

/-- The distribution of the C9 scenario: easy 0.7, medium 0.3, hard 0,
in the insertion order of the dict in the source. -/
def easyMediumHardDist : List (DifficultyLevel × ℚ) :=
  [(DifficultyLevel.easy, 7/10), (DifficultyLevel.medium, 3/10),
   (DifficultyLevel.hard, 0)]

/-- C9: for every draw in [0, 1) over the distribution
easy 0.7 / medium 0.3 / hard 0, _select_difficulty never returns hard,
so any number of draws produces zero hard selections. -/
theorem c9_hard_never_selected (rand : ℚ) (h0 : 0 ≤ rand) (h1 : rand < 1) :
    select_difficulty rand easyMediumHardDist ≠ DifficultyLevel.hard := by
  simp only [select_difficulty, easyMediumHardDist, select_difficulty_go]
  split_ifs with hA hB hC
  · decide
  · decide
  · exfalso
    apply hB
    linarith
  · decide

/-- Witness for C9 at the concrete draw 99/100. -/
theorem c9_witness :
    select_difficulty (99/100) easyMediumHardDist ≠ DifficultyLevel.hard :=
  c9_hard_never_selected (99/100) (by norm_num) (by norm_num)

/-- The descriptive statistics returned by get_learning_trajectory
(the empty dict of the no-observations case is modelled as none). -/
structure TrajectoryStats where
  total_attempts : Nat
  accuracy : ℚ
  current_mastery : ℚ
  learning_rate : ℚ
  stability : ℚ
  mastery_trajectory : List ℚ
  deriving DecidableEq, Repr

/-- BayesianKnowledgeTracker.get_learning_trajectory: descriptive
statistics of the recorded history; none when there are no
observations. -/
def get_learning_trajectory (t : BayesianKnowledgeTracker) :
    Option TrajectoryStats :=
  if t.observations.isEmpty then none
  else
    let correct_answers := t.observations.map (fun o => o.correct)
    let accuracy :=
      ((correct_answers.filter (fun b => b)).length : ℚ) / correct_answers.length
    let learning_rate :=
      if 1 < t.mastery_probabilities.length then
        (t.mastery_probabilities.getLastD 0 - t.mastery_probabilities.headD 0) /
          t.mastery_probabilities.length
      else 0
    let recent_probs :=
      if 5 ≤ t.mastery_probabilities.length then
        t.mastery_probabilities.drop (t.mastery_probabilities.length - 5)
      else t.mastery_probabilities
    let stability :=
      1 - (if 1 < recent_probs.length then listVariance recent_probs else 0)
    some { total_attempts := t.observations.length, accuracy := accuracy,
           current_mastery := t.current_mastery_prob,
           learning_rate := learning_rate, stability := stability,
           mastery_trajectory := t.mastery_probabilities }

/-- The per-knowledge-point entry of the get_overall_mastery result. -/
structure KnowledgePointStats where
  mastery_probability : ℚ
  trajectory : Option TrajectoryStats
  deriving DecidableEq, Repr

/-- The aggregate result of AdaptiveBKTSystem.get_overall_mastery. -/
structure OverallMastery where
  knowledge_points : List (String × KnowledgePointStats)
  average_mastery : ℚ
  total_knowledge_points : Nat
  well_mastered_count : Nat
  struggling_count : Nat
  deriving DecidableEq, Repr

/-- The per-id branch of get_overall_mastery: a tracked knowledge point
reports the state of its tracker, an untracked one the default 0.1 with an
empty trajectory. -/
def statsFor (trackers : List (String × BayesianKnowledgeTracker))
    (kp : String) : KnowledgePointStats :=
  match trackers.lookup kp with
  | some t => { mastery_probability := t.current_mastery_prob,
                trajectory := get_learning_trajectory t }
  | none => { mastery_probability := 1/10, trajectory := none }

/-- Assignment into the overall_stats dict: replace an existing key in
place, otherwise append in insertion order. -/
def dictInsert (d : List (String × KnowledgePointStats)) (k : String)
    (v : KnowledgePointStats) : List (String × KnowledgePointStats) :=
  if d.any (fun p => p.1 == k) then
    d.map (fun p => if p.1 = k then (k, v) else p)
  else d ++ [(k, v)]

/-- AdaptiveBKTSystem.get_overall_mastery: build the overall_stats dict
over the queried ids, then compute the average mastery (0.1 for an empty
query) and the well-mastered (> 0.8) and struggling (< 0.3) counts from
its values. -/
def get_overall_mastery (trackers : List (String × BayesianKnowledgeTracker))
    (knowledge_point_ids : List String) : OverallMastery :=
  let overall_stats := knowledge_point_ids.foldl
    (fun acc kp => dictInsert acc kp (statsFor trackers kp)) []
  let mastery_probs := overall_stats.map (fun p => p.2.mastery_probability)
  { knowledge_points := overall_stats,
    average_mastery :=
      if mastery_probs.isEmpty then 1/10
      else mastery_probs.sum / mastery_probs.length,
    total_knowledge_points := knowledge_point_ids.length,
    well_mastered_count := (mastery_probs.filter (fun p => 8/10 < p)).length,
    struggling_count := (mastery_probs.filter (fun p => p < 3/10)).length }

theorem foldl_dictInsert_append
    (trackers : List (String × BayesianKnowledgeTracker)) :
    ∀ (ids : List String) (acc : List (String × KnowledgePointStats)),
      (∀ kp ∈ ids, acc.any (fun p => p.1 == kp) = false) → ids.Nodup →
      ids.foldl (fun acc kp => dictInsert acc kp (statsFor trackers kp)) acc =
        acc ++ ids.map (fun kp => (kp, statsFor trackers kp)) := by
  intro ids
  induction ids with
  | nil =>
    intro acc _ _
    simp
  | cons a rest ih =>
    intro acc hacc hnd
    have hins : dictInsert acc a (statsFor trackers a) =
        acc ++ [(a, statsFor trackers a)] := by
      unfold dictInsert
      rw [if_neg (by rw [hacc a (List.mem_cons_self a rest)]; exact Bool.false_ne_true)]
    rw [List.foldl_cons, hins, ih]
    · simp
    · intro kp hkp
      have h1 := hacc kp (List.mem_cons_of_mem a hkp)
      have ha : a ≠ kp := by
        intro heq
        exact (List.nodup_cons.mp hnd).1 (heq ▸ hkp)
      simp [List.any_append, h1, ha]
    · exact (List.nodup_cons.mp hnd).2

theorem lookup_map_self (g : String → KnowledgePointStats) :
    ∀ (ids : List String) (kp : String), kp ∈ ids →
      (ids.map (fun k => (k, g k))).lookup kp = some (g kp) := by
  intro ids
  induction ids with
  | nil =>
    intro kp hkp
    simp at hkp
  | cons a rest ih =>
    intro kp hkp
    by_cases h : kp = a
    · subst h
      simp [List.lookup]
    · have : kp ∈ rest := by
        rcases List.mem_cons.mp hkp with h1 | h1
        · exact absurd h1 h
        · exact h1
      simp [List.lookup, beq_eq_false_iff_ne.mpr h, ih kp this]

/-- C10: over a duplicate-free list of queried ids, every id without a
tracker is reported with mastery_probability 0.1 and an empty
trajectory, and exactly these per-id values — the 0.1 defaults
included — feed the average and the well-mastered / struggling
counts. -/
theorem c10_untracked_ids_default_and_counted
    (trackers : List (String × BayesianKnowledgeTracker))
    (ids : List String) (hnd : ids.Nodup) :
    (∀ kp ∈ ids, trackers.lookup kp = none →
      (get_overall_mastery trackers ids).knowledge_points.lookup kp =
        some { mastery_probability := 1/10, trajectory := none }) ∧
    (ids ≠ [] →
      (get_overall_mastery trackers ids).average_mastery =
        (ids.map (fun kp => (statsFor trackers kp).mastery_probability)).sum /
          ids.length) ∧
    (get_overall_mastery trackers ids).well_mastered_count =
      (ids.filter
        (fun kp => 8/10 < (statsFor trackers kp).mastery_probability)).length ∧
    (get_overall_mastery trackers ids).struggling_count =
      (ids.filter
        (fun kp => (statsFor trackers kp).mastery_probability < 3/10)).length := by
  have hstats : ids.foldl
      (fun acc kp => dictInsert acc kp (statsFor trackers kp)) [] =
        ids.map (fun kp => (kp, statsFor trackers kp)) := by
    have := foldl_dictInsert_append trackers ids [] (by intro kp _; rfl) hnd
    simpa using this
  refine ⟨?_, ?_, ?_, ?_⟩
  · intro kp hkp hnone
    show (ids.foldl (fun acc kp => dictInsert acc kp (statsFor trackers kp))
        []).lookup kp = _
    rw [hstats, lookup_map_self (statsFor trackers) ids kp hkp]
    unfold statsFor
    rw [hnone]
  · intro hne
    show (if _ then _ else _) = _
    rw [hstats]
    rw [if_neg (by
      simp only [List.map_map, List.isEmpty_eq_true, List.map_eq_nil]
      exact hne)]
    simp only [List.map_map, List.length_map]
    rfl
  · show (List.filter _ _).length = _
    rw [hstats]
    rw [List.map_map, List.filter_map, List.length_map]
    rfl
  · show (List.filter _ _).length = _
    rw [hstats]
    rw [List.map_map, List.filter_map, List.length_map]
    rfl

/-- Witness for C10: an empty tracker table queried with the single id
css_grid reports the 0.1, empty-trajectory default. -/
theorem c10_witness :
    (["css_grid"] : List String).Nodup ∧
    (get_overall_mastery [] ["css_grid"]).knowledge_points.lookup "css_grid" =
      some { mastery_probability := 1/10, trajectory := none } :=
  ⟨by simp,
    (c10_untracked_ids_default_and_counted [] ["css_grid"] (by simp)).1
      "css_grid" (by simp) rfl⟩
